import Mathlib

/-!
Verification development for the BlankDigi Suite authentication backend
(`backend/server.py`).  The persistent user store (a MySQL `users` table)
is modelled as a list of typed records plus an auto-increment counter;
each HTTP endpoint becomes a pure function from the database state (and
the values that the Python code obtains from the environment: the current
time, freshly generated UUID tokens, bcrypt salt) to a result paired with
the successor database state.  An uncaught Python exception is an
`ApiError` value; the database component of the result is the state the
table is left in.
-/

namespace Suite

/-- Process-wide configuration, loaded once from the environment at startup
(`SECRET_KEY`, `ALGORITHM`, `ACCESS_TOKEN_EXPIRE_MINUTES`,
`REQUIRE_EMAIL_VERIFICATION` in `server.py`). -/
structure Config where
  SECRET_KEY : String
  ACCESS_TOKEN_EXPIRE_MINUTES : Int
  REQUIRE_EMAIL_VERIFICATION : Bool
deriving Repr, DecidableEq

/-- A value stored in the `hashed_password` column.  `bcrypt salt pw` is the
output of passlib's bcrypt hasher on password `pw` with salt `salt` (the hash
is one-way; the constructor is the abstraction of the digest).  `raw s` is an
arbitrary string in the column that was NOT produced by the hasher (a
corrupted or malformed record). -/
inductive HashVal where
  | bcrypt (salt : Nat) (password : String)
  | raw (s : String)
deriving Repr, DecidableEq

/-- Errors raised by passlib's `CryptContext`.  `unknownHash` models
`passlib.exc.UnknownHashError`, raised by `CryptContext.verify` when the
stored hash string cannot be identified as any configured scheme. -/
inductive PasslibError where
  | unknownHash
deriving Repr, DecidableEq

/-- passlib `CryptContext.verify`: recomputes the bcrypt digest of the
candidate over the stored salt and compares; raises `UnknownHashError` when
the stored string is not a recognizable hash. -/
def pwd_context_verify (plain : String) (hashed : HashVal) : Except PasslibError Bool :=
  match hashed with
  | .bcrypt _ pw => .ok (plain == pw)
  | .raw _ => .error .unknownHash

/-- passlib `CryptContext.hash` with a fresh random `salt`. -/
def pwd_context_hash (salt : Nat) (password : String) : HashVal :=
  .bcrypt salt password

/-- `verify_password` (server.py:192): delegates to `pwd_context.verify`
with no exception handling. -/
def verify_password (plain_password : String) (hashed_password : HashVal) :
    Except PasslibError Bool :=
  pwd_context_verify plain_password hashed_password

/-- `get_password_hash` (server.py:196). -/
def get_password_hash (salt : Nat) (password : String) : HashVal :=
  pwd_context_hash salt password

/-- The claim set a session JWT carries: `{"sub": ..., "exp": ...}`.
Times are integer UTC timestamps (seconds). -/
structure JWTPayload where
  sub : String
  exp : Int
deriving Repr, DecidableEq

/-- A JWT as handled by python-jose: either a well-signed token (payload
signed under `key` with the fixed HS256 algorithm; forging a signature
without the key is abstracted away by the constructor) or a string that is
not a validly signed token. -/
inductive JWTToken where
  | signed (payload : JWTPayload) (key : String)
  | invalid (s : String)
deriving Repr, DecidableEq

/-- python-jose `JWTError`; `expired` is `ExpiredSignatureError`, a subclass
the server catches under the same `except JWTError`. -/
inductive JWTError where
  | badToken
  | expired
deriving Repr, DecidableEq

/-- `jose.jwt.encode`. -/
def jwt_encode (payload : JWTPayload) (key : String) : JWTToken :=
  .signed payload key

/-- `jose.jwt.decode`: verifies the signature against `key` and validates
the `exp` claim against the current time (`ExpiredSignatureError` when
`exp` is in the past). -/
def jwt_decode (token : JWTToken) (key : String) (now : Int) : Except JWTError JWTPayload :=
  match token with
  | .invalid _ => .error .badToken
  | .signed payload k =>
    if k == key then
      if payload.exp < now then .error .expired else .ok payload
    else .error .badToken

/-- `create_access_token` (server.py:200): signs
`{"sub": subject_email, "exp": utcnow + ACCESS_TOKEN_EXPIRE_MINUTES}`
with the process secret. -/
def create_access_token (cfg : Config) (now : Int) (subject_email : String) : JWTToken :=
  jwt_encode ⟨subject_email, now + 60 * cfg.ACCESS_TOKEN_EXPIRE_MINUTES⟩ cfg.SECRET_KEY

/-- One row of the `users` table (see `init_db_once`, server.py:150).
`NULL`able columns are `Option`s; `DATETIME`s are integer timestamps. -/
structure User where
  id : Nat
  email : String
  hashed_password : HashVal
  full_name : Option String
  reset_token : Option String
  reset_token_expires : Option Int
  is_verified : Bool
  verification_token : Option String
  created_at : Int
deriving Repr, DecidableEq

/-- The `users` table: rows in insertion order plus the `AUTO_INCREMENT`
counter for the `id` column. -/
structure DB where
  users : List User
  nextId : Nat
deriving Repr, DecidableEq

/-- A FastAPI `HTTPException` as raised by the server: status code, detail
string, and whether the `WWW-Authenticate: Bearer` header is attached. -/
structure HTTPException where
  status_code : Nat
  detail : String
  www_authenticate : Bool
deriving Repr, DecidableEq

/-- An uncaught exception escaping an endpoint: either an `HTTPException`
the handler raised deliberately, or a passlib error the code failed to
catch. -/
inductive ApiError where
  | http (e : HTTPException)
  | passlib (e : PasslibError)
deriving Repr, DecidableEq

/-- `SELECT * FROM users WHERE email = %s` followed by `fetchone()`:
the first row matching the email. -/
def find_by_email (db : DB) (email : String) : Option User :=
  db.users.find? (fun u => u.email == email)

/-- `SELECT * FROM users WHERE verification_token = %s`, first row. -/
def find_by_verification_token (db : DB) (token : String) : Option User :=
  db.users.find? (fun u => u.verification_token == some token)

/-- `SELECT * FROM users WHERE reset_token = %s`, first row. -/
def find_by_reset_token (db : DB) (token : String) : Option User :=
  db.users.find? (fun u => u.reset_token == some token)

/-- `UPDATE users SET ... WHERE id = %s`: apply `f` to every row whose `id`
matches. -/
def update_where_id (db : DB) (id : Nat) (f : User → User) : DB :=
  ⟨db.users.map (fun u => if u.id == id then f u else u), db.nextId⟩

/-- Response model `Token` (server.py:115). -/
structure Token where
  access_token : JWTToken
  token_type : String
deriving Repr, DecidableEq

/-- Response model `GenericResponse` (server.py:120). -/
structure GenericResponse where
  message : String
deriving Repr, DecidableEq

/-- The `HTTPException(401, "Incorrect email or password")` raised by
`login_for_access_token` for a missing account and for a password mismatch
alike. -/
def incorrect_credentials_exc : HTTPException :=
  ⟨401, "Incorrect email or password", true⟩

/-- The `HTTPException(401, "Email not verified.")` of
`login_for_access_token`. -/
def not_verified_exc : HTTPException :=
  ⟨401, "Email not verified.", true⟩

/-- The `credentials_exception` of `get_current_user` (server.py:207). -/
def cred_exc : HTTPException :=
  ⟨401, "Could not validate credentials", true⟩

/-- `login_for_access_token` (server.py:267, `POST /token`): look up by
email; absent record or non-verifying password both raise the same
401; under `REQUIRE_EMAIL_VERIFICATION` an unverified account raises
`Email not verified.`; otherwise a session token is issued for the stored
email. -/
def login_for_access_token (cfg : Config) (db : DB) (username password : String)
    (now : Int) : Except ApiError Token × DB :=
  match find_by_email db username with
  | none => (.error (.http incorrect_credentials_exc), db)
  | some user =>
    match verify_password password user.hashed_password with
    | .error e => (.error (.passlib e), db)
    | .ok ok =>
      if !ok then (.error (.http incorrect_credentials_exc), db)
      else if cfg.REQUIRE_EMAIL_VERIFICATION && !user.is_verified then
        (.error (.http not_verified_exc), db)
      else
        (.ok ⟨create_access_token cfg now user.email, "bearer"⟩, db)

/-- `register` (server.py:294, `POST /register`).  `salt` is the fresh
bcrypt salt, `fresh_token` the `uuid4` that becomes the verification token
when the policy requires verification, `now` the insertion timestamp. -/
def register (cfg : Config) (db : DB) (email password : String)
    (full_name : Option String) (salt : Nat) (fresh_token : String) (now : Int) :
    Except ApiError GenericResponse × DB :=
  if (find_by_email db email).isSome then
    (.error (.http ⟨400, "Email already registered", false⟩), db)
  else
    let hashed_password := get_password_hash salt password
    let verification_token :=
      if cfg.REQUIRE_EMAIL_VERIFICATION then some fresh_token else none
    let is_verified := !cfg.REQUIRE_EMAIL_VERIFICATION
    let newUser : User :=
      ⟨db.nextId, email, hashed_password, full_name, none, none,
        is_verified, verification_token, now⟩
    let msg :=
      if cfg.REQUIRE_EMAIL_VERIFICATION then
        "Registration successful. Please verify your email."
      else "Registration successful."
    (.ok ⟨msg⟩, ⟨db.users ++ [newUser], db.nextId + 1⟩)

/-- `verify_email` (server.py:328, `GET /verify-email`): look up by
verification token; no match raises 400 `Invalid verification token`;
otherwise one `UPDATE` sets `is_verified = TRUE` and
`verification_token = NULL` on the matched row and the handler redirects to
the frontend. -/
def verify_email (db : DB) (token : String) : Except ApiError String × DB :=
  match find_by_verification_token db token with
  | none => (.error (.http ⟨400, "Invalid verification token", false⟩), db)
  | some user =>
    (.ok "?verified=true",
      update_where_id db user.id
        (fun u => { u with is_verified := true, verification_token := none }))

/-- `forgot_password` (server.py:361, `POST /forgot-password`): when the
email resolves, one `UPDATE` stores a fresh reset token and an expiry
15 minutes from now; the response is the same generic message either
way. -/
def forgot_password (db : DB) (email : String) (fresh_token : String) (now : Int) :
    Except ApiError GenericResponse × DB :=
  match find_by_email db email with
  | none => (.ok ⟨"If email exists, a reset token has been sent."⟩, db)
  | some user =>
    let expires := now + 60 * 15
    (.ok ⟨"If email exists, a reset token has been sent."⟩,
      update_where_id db user.id
        (fun u => { u with reset_token := some fresh_token,
                           reset_token_expires := some expires }))

/-- `reset_password` (server.py:385, `POST /reset-password`): look up by
reset token (400 `Invalid token` if absent); a missing or past
`reset_token_expires` raises 400 `Token expired` with no write; otherwise
one `UPDATE` stores the new password hash and sets both reset columns to
`NULL`. -/
def reset_password (db : DB) (token new_password : String) (salt : Nat) (now : Int) :
    Except ApiError GenericResponse × DB :=
  match find_by_reset_token db token with
  | none => (.error (.http ⟨400, "Invalid token", false⟩), db)
  | some user =>
    match user.reset_token_expires with
    | none => (.error (.http ⟨400, "Token expired", false⟩), db)
    | some expires =>
      if expires < now then (.error (.http ⟨400, "Token expired", false⟩), db)
      else
        let hashed_password := get_password_hash salt new_password
        (.ok ⟨"Password reset successfully"⟩,
          update_where_id db user.id
            (fun u => { u with hashed_password := hashed_password,
                               reset_token := none,
                               reset_token_expires := none }))

/-- `get_current_user` (server.py:206): decode the bearer token (any
`JWTError`, expiry included, becomes the 401 `credentials_exception`), reject
a missing/empty `sub` claim, then resolve the subject email to a row. -/
def get_current_user (cfg : Config) (db : DB) (token : JWTToken) (now : Int) :
    Except ApiError User :=
  match jwt_decode token cfg.SECRET_KEY now with
  | .error _ => .error (.http cred_exc)
  | .ok payload =>
    if payload.sub == "" then .error (.http cred_exc)
    else
      match find_by_email db payload.sub with
      | none => .error (.http cred_exc)
      | some user => .ok user

/-- `get_or_create_social_user` (server.py:232): an existing row for the
email is returned as-is with no write; otherwise a row is inserted with the
bcrypt hash of a freshly generated `uuid4` password (`rnd_password` with
salt `salt`), `is_verified = TRUE`, `NULL` token columns, and re-selected by
email.  The `getD` default is unreachable: the row was just inserted. -/
def get_or_create_social_user (db : DB) (email full_name : String)
    (rnd_password : String) (salt : Nat) (now : Int) : User × DB :=
  match find_by_email db email with
  | some user => (user, db)
  | none =>
    let hashed_password := get_password_hash salt rnd_password
    let newUser : User :=
      ⟨db.nextId, email, hashed_password, some full_name, none, none,
        true, none, now⟩
    let db' : DB := ⟨db.users ++ [newUser], db.nextId + 1⟩
    ((find_by_email db' email).getD newUser, db')

/-- Tail of `auth_google_callback` / `auth_github_callback`
(server.py:474-476, 522-524): after the provider exchange resolves to
`(email, name)`, reconcile to a local row and mint a session token for the
resolved record's stored email; the token is handed back in the redirect. -/
def auth_callback_login (cfg : Config) (db : DB) (email name : String)
    (rnd_password : String) (salt : Nat) (now : Int) : JWTToken × DB :=
  let res := get_or_create_social_user db email name rnd_password salt now
  (create_access_token cfg now res.1.email, res.2)

/-- Row-level reset-pair invariant: `reset_token` and `reset_token_expires`
are both present or both absent. -/
def resetPairOk (u : User) : Bool :=
  u.reset_token.isSome == u.reset_token_expires.isSome

/-- Store-level reset-pair invariant (decidable: a fold over the rows). -/
def DB.resetInv (db : DB) : Prop :=
  db.users.all resetPairOk = true

/-! ### Sample data used by the witness instantiations -/

/-- A sample configuration with verification required. -/
def cfgV : Config := ⟨"server-secret", 60, true⟩

/-- A verified sample account. -/
def aliceV : User :=
  ⟨1, "alice@example.com", get_password_hash 7 "alicepw", some "Alice",
    none, none, true, none, 0⟩

/-- An account with a pending email verification. -/
def bobPending : User :=
  ⟨2, "bob@example.com", get_password_hash 8 "bobpw", some "Bob",
    none, none, false, some "vtok-bob", 0⟩

/-- An account with a pending password reset expiring at time 1000. -/
def caroResetting : User :=
  ⟨3, "caro@example.com", get_password_hash 9 "caropw", some "Caro",
    some "rtok-caro", some 1000, true, none, 0⟩

/-- A sample store holding the three accounts. -/
def sampleDB : DB := ⟨[aliceV, bobPending, caroResetting], 4⟩

/-! ### Theorems -/

/-- Counterexample for **C6**: on a stored string that the hasher did not
produce, `verify_password` does not return `false` — it propagates passlib's
`UnknownHashError` (there is no `try`/`except` around `pwd_context.verify`
in server.py:192). -/
theorem verify_password_malformed_counterexample :
    verify_password "password" (HashVal.raw "not-a-bcrypt-hash") =
      Except.error PasslibError.unknownHash
    ∧ verify_password "password" (HashVal.raw "not-a-bcrypt-hash") ≠
        Except.ok false :=
  ⟨rfl, fun h => Except.noConfusion h⟩

/-- **C6** (amended): for every candidate password and every malformed
stored hash string, `verify_password` raises (propagates the hash library's
`UnknownHashError` to the caller) instead of returning `false`; the
function body contains no exception handling. -/
theorem verify_password_malformed_raises (pw s : String) :
    verify_password pw (HashVal.raw s) = Except.error PasslibError.unknownHash :=
  rfl

/-- **C8**: `forgot_password` answers with the one generic message no matter
what, so two runs differing only in the account's existence produce
identical responses; when the account exists, the single `UPDATE` stores the
fresh token with an expiry 15 minutes (900 seconds) ahead on every row with
the account's id, overwriting whatever pair was there. -/
theorem forgot_password_spec (db : DB) (email tok : String) (now : Int) :
    (forgot_password db email tok now).1 =
      Except.ok ⟨"If email exists, a reset token has been sent."⟩
    ∧ (find_by_email db email = none →
        forgot_password db email tok now =
          (Except.ok ⟨"If email exists, a reset token has been sent."⟩, db))
    ∧ (∀ u, find_by_email db email = some u →
        forgot_password db email tok now =
          (Except.ok ⟨"If email exists, a reset token has been sent."⟩,
            update_where_id db u.id
              (fun v => { v with reset_token := some tok,
                                 reset_token_expires := some (now + 60 * 15) })))
    ∧ (∀ u, find_by_email db email = some u →
        ∀ v ∈ (forgot_password db email tok now).2.users, v.id = u.id →
          v.reset_token = some tok
          ∧ v.reset_token_expires = some (now + 60 * 15)) := by
  refine ⟨?_, ?_, ?_, ?_⟩
  · unfold forgot_password
    cases find_by_email db email <;> rfl
  · intro h
    unfold forgot_password
    rw [h]
  · intro u hu
    unfold forgot_password
    rw [hu]
  · intro u hu v hv hvid
    unfold forgot_password at hv
    rw [hu] at hv
    simp only [update_where_id, List.mem_map] at hv
    obtain ⟨w, _, hw⟩ := hv
    by_cases hid : w.id == u.id
    · rw [if_pos hid] at hw
      rw [← hw]
      exact ⟨rfl, rfl⟩
    · rw [if_neg hid] at hw
      rw [← hw] at hvid
      exact absurd (by simp [hvid]) hid

/-- Witness for C8 at a concrete store: the account exists, and after the
call its row carries the fresh token and the 900-second expiry. -/
theorem forgot_password_spec_witness :
    find_by_email sampleDB "alice@example.com" = some aliceV
    ∧ ((forgot_password sampleDB "alice@example.com" "fresh-tok" 50).1 =
        Except.ok ⟨"If email exists, a reset token has been sent."⟩)
    ∧ forgot_password sampleDB "alice@example.com" "fresh-tok" 50 =
        (Except.ok ⟨"If email exists, a reset token has been sent."⟩,
          update_where_id sampleDB aliceV.id
            (fun v => { v with reset_token := some "fresh-tok",
                               reset_token_expires := some (50 + 60 * 15) })) :=
  ⟨rfl, (forgot_password_spec sampleDB "alice@example.com" "fresh-tok" 50).1,
    (forgot_password_spec sampleDB "alice@example.com" "fresh-tok" 50).2.2.1 aliceV rfl⟩

/-- **C4**: `register` rejects a duplicate email with the 400
`Email already registered` error; otherwise it appends exactly one row
holding the bcrypt hash of the password, with a fresh verification token and
`is_verified = FALSE` under `REQUIRE_EMAIL_VERIFICATION`, else no token and
`is_verified = TRUE` — so the new row always satisfies
`verification_token present XOR is_verified` — and returns only the
confirmation message (response model `GenericResponse`; no session token is
part of the result). -/
theorem register_spec (cfg : Config) (db : DB) (email password : String)
    (full_name : Option String) (salt : Nat) (tok : String) (now : Int) :
    ((find_by_email db email).isSome = true →
      register cfg db email password full_name salt tok now =
        (Except.error (ApiError.http ⟨400, "Email already registered", false⟩), db))
    ∧ ((find_by_email db email).isSome = false →
      register cfg db email password full_name salt tok now =
        (Except.ok ⟨if cfg.REQUIRE_EMAIL_VERIFICATION then
              "Registration successful. Please verify your email."
            else "Registration successful."⟩,
          ⟨db.users ++
              [⟨db.nextId, email, get_password_hash salt password, full_name,
                none, none, !cfg.REQUIRE_EMAIL_VERIFICATION,
                if cfg.REQUIRE_EMAIL_VERIFICATION then some tok else none, now⟩],
            db.nextId + 1⟩))
    ∧ ((find_by_email db email).isSome = false →
      ∃ u, (register cfg db email password full_name salt tok now).2.users =
            db.users ++ [u]
        ∧ u.email = email
        ∧ u.hashed_password = get_password_hash salt password
        ∧ u.verification_token.isSome = !u.is_verified
        ∧ (cfg.REQUIRE_EMAIL_VERIFICATION = true →
            u.verification_token = some tok ∧ u.is_verified = false)
        ∧ (cfg.REQUIRE_EMAIL_VERIFICATION = false →
            u.verification_token = none ∧ u.is_verified = true)) := by
  refine ⟨?_, ?_, ?_⟩
  · intro h
    unfold register
    rw [h]
    rfl
  · intro h
    unfold register
    rw [h]
    rfl
  · intro h
    refine ⟨⟨db.nextId, email, get_password_hash salt password, full_name,
      none, none, !cfg.REQUIRE_EMAIL_VERIFICATION,
      if cfg.REQUIRE_EMAIL_VERIFICATION then some tok else none, now⟩, ?_, rfl, rfl, ?_, ?_, ?_⟩
    · unfold register
      rw [h]
      rfl
    · cases hreq : cfg.REQUIRE_EMAIL_VERIFICATION <;> simp [hreq]
    · intro hreq
      rw [hreq]
      exact ⟨rfl, rfl⟩
    · intro hreq
      rw [hreq]
      exact ⟨rfl, rfl⟩

/-- Witness for C4: registering a fresh email under the
verification-required policy appends the expected pending row, and
re-registering Alice's email is rejected. -/
theorem register_spec_witness :
    ((find_by_email sampleDB "dave@example.com").isSome = false
      ∧ register cfgV sampleDB "dave@example.com" "davepw" (some "Dave") 11 "vtok-dave" 77 =
          (Except.ok ⟨"Registration successful. Please verify your email."⟩,
            ⟨sampleDB.users ++
                [⟨sampleDB.nextId, "dave@example.com",
                  get_password_hash 11 "davepw", some "Dave",
                  none, none, !cfgV.REQUIRE_EMAIL_VERIFICATION,
                  if cfgV.REQUIRE_EMAIL_VERIFICATION then some "vtok-dave" else none, 77⟩],
              sampleDB.nextId + 1⟩))
    ∧ ((find_by_email sampleDB "alice@example.com").isSome = true
      ∧ register cfgV sampleDB "alice@example.com" "x" none 0 "t" 0 =
          (Except.error (ApiError.http ⟨400, "Email already registered", false⟩),
            sampleDB)) :=
  ⟨⟨rfl, (register_spec cfgV sampleDB "dave@example.com" "davepw" (some "Dave")
      11 "vtok-dave" 77).2.1 rfl⟩,
    ⟨rfl, (register_spec cfgV sampleDB "alice@example.com" "x" none 0 "t" 0).1 rfl⟩⟩

/-- **C5**: `get_or_create_social_user` returns a pre-existing row for the
email exactly as stored — every field, `hashed_password` and `is_verified`
included — with the store untouched; for a new email it inserts one row
with `is_verified = TRUE` and a password hash of the freshly generated
random value.  The random plaintext reaches the caller only inside the
one-way `get_password_hash` digest: the last clause shows the result for
two different random values differs in nothing but the stored digest. -/
theorem get_or_create_social_user_spec (db : DB) (email name rnd : String)
    (salt : Nat) (now : Int) :
    (∀ u, find_by_email db email = some u →
      get_or_create_social_user db email name rnd salt now = (u, db))
    ∧ (find_by_email db email = none →
      get_or_create_social_user db email name rnd salt now =
        (⟨db.nextId, email, get_password_hash salt rnd, some name, none, none,
            true, none, now⟩,
          ⟨db.users ++
              [⟨db.nextId, email, get_password_hash salt rnd, some name, none,
                none, true, none, now⟩],
            db.nextId + 1⟩))
    ∧ (find_by_email db email = none → ∀ rnd2 : String, ∀ salt2 : Nat,
      (get_or_create_social_user db email name rnd salt now).1 =
        { (get_or_create_social_user db email name rnd2 salt2 now).1 with
            hashed_password := get_password_hash salt rnd }) := by
  have key : ∀ rnd' : String, ∀ salt' : Nat, find_by_email db email = none →
      get_or_create_social_user db email name rnd' salt' now =
        (⟨db.nextId, email, get_password_hash salt' rnd', some name, none, none,
            true, none, now⟩,
          ⟨db.users ++
              [⟨db.nextId, email, get_password_hash salt' rnd', some name, none,
                none, true, none, now⟩],
            db.nextId + 1⟩) := by
    intro rnd' salt' h
    unfold get_or_create_social_user
    rw [h]
    simp only [find_by_email] at h ⊢
    simp [List.find?_append, h]
  refine ⟨?_, key rnd salt, ?_⟩
  · intro u hu
    unfold get_or_create_social_user
    rw [hu]
  · intro h rnd2 salt2
    rw [key rnd salt h, key rnd2 salt2 h]

/-- Witness for C5: Bob's pending row is returned untouched (store equal),
and a fresh federation email creates a verified row whose only dependence
on the random password is the stored digest. -/
theorem get_or_create_social_user_spec_witness :
    (find_by_email sampleDB "bob@example.com" = some bobPending
      ∧ get_or_create_social_user sampleDB "bob@example.com" "Bobby" "rnd-uuid" 21 99 =
          (bobPending, sampleDB))
    ∧ (find_by_email sampleDB "eve@example.com" = none
      ∧ get_or_create_social_user sampleDB "eve@example.com" "Eve" "rnd-uuid" 21 99 =
          (⟨sampleDB.nextId, "eve@example.com", get_password_hash 21 "rnd-uuid",
              some "Eve", none, none, true, none, 99⟩,
            ⟨sampleDB.users ++
                [⟨sampleDB.nextId, "eve@example.com", get_password_hash 21 "rnd-uuid",
                  some "Eve", none, none, true, none, 99⟩],
              sampleDB.nextId + 1⟩)) :=
  ⟨⟨rfl, (get_or_create_social_user_spec sampleDB "bob@example.com" "Bobby"
      "rnd-uuid" 21 99).1 bobPending rfl⟩,
    ⟨rfl, (get_or_create_social_user_spec sampleDB "eve@example.com" "Eve"
      "rnd-uuid" 21 99).2.1 rfl⟩⟩

/-- **C1**: when a row holds verification token `t` (and, as `uuid4` tokens
are globally unique, no other row holds it), `verify_email t` succeeds,
and the single `UPDATE` of that transition leaves every row with that id
verified and with the token cleared; presenting the same `t` to the
resulting store fails with the 400 `Invalid verification token` error and
changes nothing — a consumed token cannot be replayed. -/
theorem verify_email_single_use (db : DB) (t : String) (u : User)
    (hu : find_by_verification_token db t = some u)
    (huniq : ∀ v ∈ db.users, v.verification_token = some t → v.id = u.id) :
    verify_email db t =
      (Except.ok "?verified=true",
        update_where_id db u.id
          (fun v => { v with is_verified := true, verification_token := none }))
    ∧ (∀ v ∈ (update_where_id db u.id
          (fun v => { v with is_verified := true, verification_token := none })).users,
        v.id = u.id → v.is_verified = true ∧ v.verification_token = none)
    ∧ { u with is_verified := true, verification_token := none } ∈
        (update_where_id db u.id
          (fun v => { v with is_verified := true, verification_token := none })).users
    ∧ verify_email
        (update_where_id db u.id
          (fun v => { v with is_verified := true, verification_token := none })) t =
        (Except.error (ApiError.http ⟨400, "Invalid verification token", false⟩),
          update_where_id db u.id
            (fun v => { v with is_verified := true, verification_token := none })) := by
  refine ⟨?_, ?_, ?_, ?_⟩
  · unfold verify_email
    rw [hu]
  · intro v hv hvid
    simp only [update_where_id, List.mem_map] at hv
    obtain ⟨w, _, hw⟩ := hv
    by_cases hid : w.id == u.id
    · rw [if_pos hid] at hw
      rw [← hw]
      exact ⟨rfl, rfl⟩
    · rw [if_neg hid] at hw
      rw [← hw] at hvid
      exact absurd (by simp [hvid]) hid
  · have humem : u ∈ db.users := List.mem_of_find?_eq_some hu
    simp only [update_where_id, List.mem_map]
    exact ⟨u, humem, by rw [if_pos (by simp)]⟩
  · have hnone : find_by_verification_token
        (update_where_id db u.id
          (fun v => { v with is_verified := true, verification_token := none })) t = none := by
      unfold find_by_verification_token update_where_id
      rw [List.find?_eq_none]
      intro v hv
      simp only [List.mem_map] at hv
      obtain ⟨w, hwmem, hw⟩ := hv
      by_cases hid : w.id == u.id
      · rw [if_pos hid] at hw
        rw [← hw]
        simp
      · rw [if_neg hid] at hw
        rw [← hw]
        intro hcontra
        exact hid (by simp [huniq w hwmem (by simpa using hcontra)])
    unfold verify_email
    rw [hnone]

/-- Witness for C1: consuming Bob's pending verification token flips his row
to verified and the second presentation of the same token is rejected. -/
theorem verify_email_single_use_witness :
    find_by_verification_token sampleDB "vtok-bob" = some bobPending
    ∧ verify_email sampleDB "vtok-bob" =
        (Except.ok "?verified=true",
          update_where_id sampleDB bobPending.id
            (fun v => { v with is_verified := true, verification_token := none }))
    ∧ verify_email
        (update_where_id sampleDB bobPending.id
          (fun v => { v with is_verified := true, verification_token := none }))
        "vtok-bob" =
        (Except.error (ApiError.http ⟨400, "Invalid verification token", false⟩),
          update_where_id sampleDB bobPending.id
            (fun v => { v with is_verified := true, verification_token := none })) :=
  ⟨rfl,
    (verify_email_single_use sampleDB "vtok-bob" bobPending rfl (by decide)).1,
    (verify_email_single_use sampleDB "vtok-bob" bobPending rfl (by decide)).2.2.2⟩

/-- **C2**: `reset_password` raises 400 `Invalid token` when no row holds
the reset token; when the found row's expiry (present on every reachable
row holding a token, by the reset-pair invariant) lies in the past it
raises 400 `Token expired` and returns the store exactly as it was — the
stale token/expiry pair is not cleared; otherwise the one `UPDATE` stores
the bcrypt hash of the new password and sets both reset columns to `NULL`
together. -/
theorem reset_password_spec (db : DB) (t newpw : String) (salt : Nat) (now : Int) :
    (find_by_reset_token db t = none →
      reset_password db t newpw salt now =
        (Except.error (ApiError.http ⟨400, "Invalid token", false⟩), db))
    ∧ (∀ u e, find_by_reset_token db t = some u →
        u.reset_token_expires = some e → e < now →
        reset_password db t newpw salt now =
          (Except.error (ApiError.http ⟨400, "Token expired", false⟩), db))
    ∧ (∀ u e, find_by_reset_token db t = some u →
        u.reset_token_expires = some e → ¬ e < now →
        reset_password db t newpw salt now =
          (Except.ok ⟨"Password reset successfully"⟩,
            update_where_id db u.id
              (fun v => { v with hashed_password := get_password_hash salt newpw,
                                 reset_token := none,
                                 reset_token_expires := none }))) := by
  refine ⟨?_, ?_, ?_⟩
  · intro h
    unfold reset_password
    rw [h]
  · intro u e hu he hlt
    unfold reset_password
    rw [hu]
    dsimp only
    rw [he]
    dsimp only
    rw [if_pos hlt]
  · intro u e hu he hge
    unfold reset_password
    rw [hu]
    dsimp only
    rw [he]
    dsimp only
    rw [if_neg hge]

/-- Witness for C2: Caro's token expiring at 1000 is rejected as expired at
time 2000 with the store unchanged, and is consumed at time 500, clearing
the pair and storing the new hash. -/
theorem reset_password_spec_witness :
    find_by_reset_token sampleDB "rtok-caro" = some caroResetting
    ∧ caroResetting.reset_token_expires = some 1000
    ∧ reset_password sampleDB "rtok-caro" "newpw" 31 2000 =
        (Except.error (ApiError.http ⟨400, "Token expired", false⟩), sampleDB)
    ∧ reset_password sampleDB "rtok-caro" "newpw" 31 500 =
        (Except.ok ⟨"Password reset successfully"⟩,
          update_where_id sampleDB caroResetting.id
            (fun v => { v with hashed_password := get_password_hash 31 "newpw",
                               reset_token := none,
                               reset_token_expires := none })) :=
  ⟨rfl, rfl,
    (reset_password_spec sampleDB "rtok-caro" "newpw" 31 2000).2.1
      caroResetting 1000 rfl rfl (by decide),
    (reset_password_spec sampleDB "rtok-caro" "newpw" 31 500).2.2
      caroResetting 1000 rfl rfl (by decide)⟩

/-- **C3**: password login answers the missing-account case and the
password-mismatch case with one and the same error value (the single 401
`Incorrect email or password` `HTTPException`, `WWW-Authenticate` header
included, with the store untouched) — the two failures are
indistinguishable to the caller; a verifying password on an unverified
account under the verification policy gets 401 `Email not verified.`;
otherwise the caller receives a bearer session token minted for the
stored email. -/
theorem login_for_access_token_spec (cfg : Config) (db : DB)
    (email pw : String) (now : Int) :
    (find_by_email db email = none →
      login_for_access_token cfg db email pw now =
        (Except.error (ApiError.http incorrect_credentials_exc), db))
    ∧ (∀ u, find_by_email db email = some u →
        verify_password pw u.hashed_password = Except.ok false →
        login_for_access_token cfg db email pw now =
          (Except.error (ApiError.http incorrect_credentials_exc), db))
    ∧ (∀ u, find_by_email db email = some u →
        verify_password pw u.hashed_password = Except.ok true →
        cfg.REQUIRE_EMAIL_VERIFICATION = true → u.is_verified = false →
        login_for_access_token cfg db email pw now =
          (Except.error (ApiError.http not_verified_exc), db))
    ∧ (∀ u, find_by_email db email = some u →
        verify_password pw u.hashed_password = Except.ok true →
        (cfg.REQUIRE_EMAIL_VERIFICATION = false ∨ u.is_verified = true) →
        login_for_access_token cfg db email pw now =
          (Except.ok ⟨create_access_token cfg now u.email, "bearer"⟩, db)) := by
  refine ⟨?_, ?_, ?_, ?_⟩
  · intro h
    unfold login_for_access_token
    rw [h]
  · intro u hu hv
    unfold login_for_access_token
    rw [hu]
    dsimp only
    rw [hv]
    rfl
  · intro u hu hv hreq hver
    unfold login_for_access_token
    rw [hu]
    dsimp only
    rw [hv]
    simp [hreq, hver]
  · intro u hu hv hok
    unfold login_for_access_token
    rw [hu]
    dsimp only
    rw [hv]
    rcases hok with hok | hok <;> simp [hok]

/-- Witness for C3: a wrong password for Alice and a login for an absent
account produce the identical error pair, and Alice's correct password
yields a bearer token. -/
theorem login_for_access_token_spec_witness :
    (login_for_access_token cfgV sampleDB "nobody@example.com" "whatever" 10 =
        (Except.error (ApiError.http incorrect_credentials_exc), sampleDB))
    ∧ (login_for_access_token cfgV sampleDB "alice@example.com" "wrongpw" 10 =
        (Except.error (ApiError.http incorrect_credentials_exc), sampleDB))
    ∧ (login_for_access_token cfgV sampleDB "alice@example.com" "alicepw" 10 =
        (Except.ok ⟨create_access_token cfgV 10 aliceV.email, "bearer"⟩, sampleDB)) :=
  ⟨(login_for_access_token_spec cfgV sampleDB "nobody@example.com" "whatever" 10).1 rfl,
    (login_for_access_token_spec cfgV sampleDB "alice@example.com" "wrongpw" 10).2.1
      aliceV rfl rfl,
    (login_for_access_token_spec cfgV sampleDB "alice@example.com" "alicepw" 10).2.2.2
      aliceV rfl rfl (Or.inr rfl)⟩

/-- **C7**: a session token minted at `issued` for a (nonempty) subject
email carries `exp = issued + 60 * ACCESS_TOKEN_EXPIRE_MINUTES`; at every
instant strictly before that expiry, `jwt.decode` under the same secret
accepts the signature and returns the embedded subject, and the bearer path
resolves it to the subject's row; at every instant strictly after the
expiry, decoding raises `ExpiredSignatureError` and the bearer path fails
with the 401 `Could not validate credentials` exception. -/
theorem access_token_roundtrip (cfg : Config) (db : DB) (email : String)
    (u : User) (hne : email ≠ "") (hu : find_by_email db email = some u)
    (issued t : Int) :
    (t < issued + 60 * cfg.ACCESS_TOKEN_EXPIRE_MINUTES →
      jwt_decode (create_access_token cfg issued email) cfg.SECRET_KEY t =
        Except.ok ⟨email, issued + 60 * cfg.ACCESS_TOKEN_EXPIRE_MINUTES⟩
      ∧ get_current_user cfg db (create_access_token cfg issued email) t =
          Except.ok u)
    ∧ (issued + 60 * cfg.ACCESS_TOKEN_EXPIRE_MINUTES < t →
      jwt_decode (create_access_token cfg issued email) cfg.SECRET_KEY t =
        Except.error JWTError.expired
      ∧ get_current_user cfg db (create_access_token cfg issued email) t =
          Except.error (ApiError.http cred_exc)) := by
  constructor
  · intro hbefore
    have hdec : jwt_decode (create_access_token cfg issued email) cfg.SECRET_KEY t =
        Except.ok ⟨email, issued + 60 * cfg.ACCESS_TOKEN_EXPIRE_MINUTES⟩ := by
      unfold create_access_token jwt_encode jwt_decode
      dsimp only
      rw [if_pos (by simp), if_neg (by exact not_lt_of_lt hbefore)]
    refine ⟨hdec, ?_⟩
    unfold get_current_user
    rw [hdec]
    dsimp only
    rw [if_neg (by simpa using hne)]
    rw [hu]
  · intro hafter
    have hdec : jwt_decode (create_access_token cfg issued email) cfg.SECRET_KEY t =
        Except.error JWTError.expired := by
      unfold create_access_token jwt_encode jwt_decode
      dsimp only
      rw [if_pos (by simp), if_pos hafter]
    refine ⟨hdec, ?_⟩
    unfold get_current_user
    rw [hdec]

/-- Witness for C7: a token for Alice minted at time 0 under a 60-minute
ttl resolves to her row at time 3599 and is rejected at time 3601. -/
theorem access_token_roundtrip_witness :
    find_by_email sampleDB "alice@example.com" = some aliceV
    ∧ (jwt_decode (create_access_token cfgV 0 "alice@example.com")
          cfgV.SECRET_KEY 3599 =
        Except.ok ⟨"alice@example.com", 0 + 60 * cfgV.ACCESS_TOKEN_EXPIRE_MINUTES⟩
      ∧ get_current_user cfgV sampleDB
          (create_access_token cfgV 0 "alice@example.com") 3599 = Except.ok aliceV)
    ∧ (jwt_decode (create_access_token cfgV 0 "alice@example.com")
          cfgV.SECRET_KEY 3601 = Except.error JWTError.expired
      ∧ get_current_user cfgV sampleDB
          (create_access_token cfgV 0 "alice@example.com") 3601 =
          Except.error (ApiError.http cred_exc)) :=
  ⟨rfl,
    (access_token_roundtrip cfgV sampleDB "alice@example.com" aliceV
      (by decide) rfl 0 3599).1 (by decide),
    (access_token_roundtrip cfgV sampleDB "alice@example.com" aliceV
      (by decide) rfl 0 3601).2 (by decide)⟩

/-- An `UPDATE ... WHERE id` whose per-row change preserves the reset-pair
invariant preserves it for the whole store. -/
theorem resetInv_update_where_id (db : DB) (id : Nat) (f : User → User)
    (hf : ∀ u, resetPairOk u = true → resetPairOk (f u) = true)
    (hdb : db.resetInv) : (update_where_id db id f).resetInv := by
  simp only [DB.resetInv, List.all_eq_true] at hdb ⊢
  intro v hv
  simp only [update_where_id, List.mem_map] at hv
  obtain ⟨w, hwmem, hw⟩ := hv
  by_cases hid : w.id == id
  · rw [if_pos hid] at hw
    rw [← hw]
    exact hf w (hdb w hwmem)
  · rw [if_neg hid] at hw
    rw [← hw]
    exact hdb w hwmem

/-- Inserting a row satisfying the reset-pair invariant preserves it. -/
theorem resetInv_insert (db : DB) (u : User) (n : Nat)
    (hu : resetPairOk u = true) (hdb : db.resetInv) :
    DB.resetInv ⟨db.users ++ [u], n⟩ := by
  simp only [DB.resetInv, List.all_eq_true] at hdb ⊢
  intro v hv
  simp only [List.mem_append, List.mem_singleton] at hv
  rcases hv with hv | hv
  · exact hdb v hv
  · rw [hv]; exact hu

/-- `login_for_access_token` never writes: the store component of its
result is the input store. -/
theorem login_for_access_token_db_unchanged (cfg : Config) (db : DB)
    (email pw : String) (now : Int) :
    (login_for_access_token cfg db email pw now).2 = db := by
  unfold login_for_access_token
  cases find_by_email db email
  · rfl
  · dsimp only
    cases verify_password pw _
    · rfl
    · dsimp only
      split
      · rfl
      · split <;> rfl

/-- **C9**: every operation of the credential authority and the federation
reconciler preserves the store invariant that `reset_token` and
`reset_token_expires` are both present or both absent on every row:
`register` and `get_or_create_social_user` insert rows with both `NULL`,
`login_for_access_token` never writes, `verify_email` touches only the
verification columns, `forgot_password` sets both together, and
`reset_password` clears both together (or writes nothing on failure). -/
theorem reset_pair_invariant_preserved (cfg : Config) (db : DB)
    (email1 password email2 pw verTok email3 resTok newpw email4 name rnd : String)
    (full_name : Option String) (salt : Nat) (tok : String) (now : Int)
    (hdb : db.resetInv) :
    ((register cfg db email1 password full_name salt tok now).2.resetInv)
    ∧ ((login_for_access_token cfg db email2 pw now).2.resetInv)
    ∧ ((verify_email db verTok).2.resetInv)
    ∧ ((forgot_password db email3 tok now).2.resetInv)
    ∧ ((reset_password db resTok newpw salt now).2.resetInv)
    ∧ ((get_or_create_social_user db email4 name rnd salt now).2.resetInv) := by
  refine ⟨?_, ?_, ?_, ?_, ?_, ?_⟩
  · unfold register
    split
    · exact hdb
    · exact resetInv_insert db _ _ rfl hdb
  · rw [login_for_access_token_db_unchanged]
    exact hdb
  · unfold verify_email
    cases find_by_verification_token db verTok
    · exact hdb
    · exact resetInv_update_where_id db _ _ (fun u h => h) hdb
  · unfold forgot_password
    cases find_by_email db email3
    · exact hdb
    · exact resetInv_update_where_id db _ _ (fun u _ => rfl) hdb
  · unfold reset_password
    cases find_by_reset_token db resTok
    · exact hdb
    · rename_i user
      dsimp only
      cases user.reset_token_expires
      · exact hdb
      · dsimp only
        split
        · exact hdb
        · exact resetInv_update_where_id db _ _ (fun u _ => rfl) hdb
  · unfold get_or_create_social_user
    cases find_by_email db email4
    · exact resetInv_insert db _ _ rfl hdb
    · exact hdb

/-- Witness for C9: the sample store satisfies the pair invariant, and so
does its image under each of the six operations. -/
theorem reset_pair_invariant_preserved_witness :
    ((register cfgV sampleDB "dave@example.com" "pw" none 2 "t2" 5).2.resetInv)
    ∧ ((login_for_access_token cfgV sampleDB "alice@example.com" "alicepw" 5).2.resetInv)
    ∧ ((verify_email sampleDB "vtok-bob").2.resetInv)
    ∧ ((forgot_password sampleDB "alice@example.com" "t2" 5).2.resetInv)
    ∧ ((reset_password sampleDB "rtok-caro" "npw" 2 5).2.resetInv)
    ∧ ((get_or_create_social_user sampleDB "eve@example.com" "Eve" "r" 2 5).2.resetInv) :=
  reset_pair_invariant_preserved cfgV sampleDB "dave@example.com" "pw"
    "alice@example.com" "alicepw" "vtok-bob" "alice@example.com" "rtok-caro"
    "npw" "eve@example.com" "Eve" "r" none 2 "t2" 5 rfl

/-- **C10** (implicit): for an existing unverified account, the OAuth
callback path mints and returns a session token for the account's stored
email with the store untouched, even with `REQUIRE_EMAIL_VERIFICATION` on —
the federated path contains no `Email not verified.` check — whereas
password login for the same account can never return a token under that
policy, whatever the password and time. -/
theorem auth_callback_skips_verification (cfg : Config) (db : DB)
    (email name rnd : String) (salt : Nat) (now : Int) (u : User)
    (hu : find_by_email db email = some u) (hver : u.is_verified = false)
    (hpol : cfg.REQUIRE_EMAIL_VERIFICATION = true) :
    auth_callback_login cfg db email name rnd salt now =
      (create_access_token cfg now u.email, db)
    ∧ (∀ pw : String, ∀ t : Int, ∀ tk : Token,
        (login_for_access_token cfg db email pw t).1 ≠ Except.ok tk) := by
  constructor
  · unfold auth_callback_login get_or_create_social_user
    rw [hu]
  · intro pw t tk
    unfold login_for_access_token
    rw [hu]
    dsimp only
    cases verify_password pw u.hashed_password
    · intro h
      exact Except.noConfusion h
    · rename_i ok
      cases ok
      · intro h
        exact Except.noConfusion h
      · dsimp only
        rw [hpol, hver]
        intro h
        exact Except.noConfusion h

/-- Witness for C10: federated login as Bob (unverified, verification
policy on) returns a session token for his stored email and leaves the
store as it was, while his correct password is refused a token. -/
theorem auth_callback_skips_verification_witness :
    find_by_email sampleDB "bob@example.com" = some bobPending
    ∧ bobPending.is_verified = false
    ∧ cfgV.REQUIRE_EMAIL_VERIFICATION = true
    ∧ auth_callback_login cfgV sampleDB "bob@example.com" "Bob" "rnd" 5 42 =
        (create_access_token cfgV 42 bobPending.email, sampleDB)
    ∧ (login_for_access_token cfgV sampleDB "bob@example.com" "bobpw" 42).1 ≠
        Except.ok ⟨create_access_token cfgV 42 bobPending.email, "bearer"⟩ :=
  ⟨rfl, rfl, rfl,
    (auth_callback_skips_verification cfgV sampleDB "bob@example.com" "Bob"
      "rnd" 5 42 bobPending rfl rfl rfl).1,
    (auth_callback_skips_verification cfgV sampleDB "bob@example.com" "Bob"
      "rnd" 5 42 bobPending rfl rfl rfl).2 "bobpw" 42
      ⟨create_access_token cfgV 42 bobPending.email, "bearer"⟩⟩

end Suite
